import Mathlib

/-!
Verification of the `mindctrl` process-lifecycle orchestrator
(`src/python/src/mindctrl/main.py`).

The source is the FastAPI `lifespan` async context manager together with
`write_healthcheck_file` and the `lru_cache`d `get_settings`.  We embed:

* the bounded event window `collections.deque(maxlen=20)` as a list with a
  capacity-evicting append (`dequeAppend`);
* the straight-line startup section of `lifespan` (everything up to `yield`)
  as a function producing the ordered trace of observable steps it performs,
  the error it raises (if any), whether the shared state was published
  (`yield` reached), and which background-task handles it keeps bound;
* the shutdown section (everything after `yield`) as a function of the
  outcome of awaiting the cancelled listener task;
* `write_healthcheck_file` with Python truthiness on `settings.notify_fd`;
* `get_settings` as an explicit construct-once cache.
-/

namespace Mindctrl

/-- One event record held in the ring buffer.  In the source these are
`dict` payloads; their contents are irrelevant to the window's behaviour,
so the window is developed over an arbitrary element type. -/
abbrev EventRecord := Nat

/-- `collections.deque(maxlen=C).append(x)`: append `x` on the right; if the
deque is already at capacity, the single leftmost (oldest) element is
discarded first. -/
def dequeAppend {α : Type} (maxlen : Nat) (q : List α) (x : α) : List α :=
  if q.length < maxlen then q ++ [x] else q.drop 1 ++ [x]

/-- The window contents after appending every element of `es`, in order, to
the freshly created `deque(maxlen=20)` of `lifespan`
(`state_ring_buffer: collections.deque[dict] = collections.deque(maxlen=20)`). -/
def windowOfAppends {α : Type} (es : List α) : List α :=
  es.foldl (dequeAppend 20) []

/-- `app_settings.store` (pydantic sub-model); only `store_type` is read by
`lifespan`. -/
structure StoreSettings where
  store_type : String
deriving Repr, DecidableEq

/-- `app_settings.events` (pydantic sub-model); only `events_type` is read by
`lifespan`. -/
structure EventsSettings where
  events_type : String
deriving Repr, DecidableEq

/-- The fields of `AppSettings` that `main.py` reads.  `notify_fd` is the
s6 readiness file descriptor, absent or an integer. -/
structure AppSettings where
  store : StoreSettings
  events : EventsSettings
  notify_fd : Option Int
  include_challenger_models : Bool
  force_publish_models : Bool
deriving Repr, DecidableEq

/-- Python truthiness of the `notify_fd` setting: `None` and `0` are falsy,
every other integer is truthy (`if notification_fd:`). -/
def pyTruthy : Option Int → Bool
  | none => false
  | some n => decide (n ≠ 0)

/-- The integer value of the configured descriptor (`int(notification_fd)`);
only meaningful when `pyTruthy` holds. -/
def fdVal : Option Int → Int
  | none => 0
  | some n => n

/-- Identities of the two background tasks `lifespan` creates. -/
inductive TaskId
  | registryPoller
  | mqttListener
deriving Repr, DecidableEq

/-- Observable steps performed by `lifespan`, in program order.  `writeByte`
carries the descriptor and the byte string written (`b"\n"` is `[10]`). -/
inductive Step
  | spawnPoller (interval : Nat)
  | createRingBuffer (maxlen : Nat)
  | setupDb
  | setupMqttClient
  | spawnListener
  | logModels
  | connectMlflow
  | writeByte (fd : Int) (bytes : List Nat)
  | closeFd (fd : Int)
  | publishState
  | cancelTask (t : TaskId)
  | awaitTask (t : TaskId)
  | disposeEngine
deriving Repr, DecidableEq

/-- The `ValueError`s `lifespan` can raise during startup, plus failure of
`await setup_db(...)` itself. -/
inductive StartupError
  | unknownStoreType (k : String)
  | unknownEventsType (k : String)
  | dbError
deriving Repr, DecidableEq

/-- `write_healthcheck_file(settings)`: if `settings.notify_fd` is truthy,
write the single newline byte to it and close it; otherwise do nothing. -/
def write_healthcheck_file (s : AppSettings) : List Step :=
  if pyTruthy s.notify_fd then
    [Step.writeByte (fdVal s.notify_fd) [10], Step.closeFd (fdVal s.notify_fd)]
  else []

/-- Result of running the startup section of `lifespan` (up to `yield`). -/
structure StartupResult where
  trace : List Step
  error : Option StartupError
  published : Bool
  boundTasks : List TaskId
deriving Repr, DecidableEq

/-- The steps `lifespan` performs unconditionally before any validation:
`asyncio.create_task(poll_registry(10.0))` (handle dropped) and the creation
of the capacity-20 ring buffer. -/
def startupSteps0 : List Step :=
  [Step.spawnPoller 10, Step.createRingBuffer 20]

/-- The startup section of `lifespan`, in source order: spawn the registry
poller (fire-and-forget), create the ring buffer, check the store type
(`raise ValueError` if not `"psql"`), `await setup_db` (`dbOk = false`
models its failure), check the events type (`raise ValueError` if not
`"mqtt"`), construct the MQTT client, spawn the listener task (handle kept),
log models, connect to MLflow, run `write_healthcheck_file`, and `yield`
the shared state. -/
def startup (s : AppSettings) (dbOk : Bool) : StartupResult :=
  if s.store.store_type = "psql" then
    if dbOk then
      if s.events.events_type = "mqtt" then
        { trace := startupSteps0 ++
            [Step.setupDb, Step.setupMqttClient, Step.spawnListener,
             Step.logModels, Step.connectMlflow] ++
            write_healthcheck_file s ++ [Step.publishState]
          error := none
          published := true
          boundTasks := [TaskId.mqttListener] }
      else
        { trace := startupSteps0 ++ [Step.setupDb]
          error := some (StartupError.unknownEventsType s.events.events_type)
          published := false
          boundTasks := [] }
    else
      { trace := startupSteps0
        error := some StartupError.dbError
        published := false
        boundTasks := [] }
  else
    { trace := startupSteps0
      error := some (StartupError.unknownStoreType s.store.store_type)
      published := false
      boundTasks := [] }

/-- Outcome of `await mqtt_listener_task` after `mqtt_listener_task.cancel()`:
the task ends by raising `CancelledError` (the expected path), returns
normally, or raises some other exception. -/
inductive AwaitOutcome
  | cancelledError
  | normalReturn
  | otherError
deriving Repr, DecidableEq

/-- The shutdown section of `lifespan` (after `yield`): cancel the listener
task, await it with `except asyncio.CancelledError: pass`, then
`await engine.dispose()`.  Returns the trace of steps and whether the
shutdown itself raises (a non-`CancelledError` from the await propagates and
skips the dispose). -/
def stop (o : AwaitOutcome) : List Step × Bool :=
  let t := [Step.cancelTask TaskId.mqttListener, Step.awaitTask TaskId.mqttListener]
  match o with
  | AwaitOutcome.cancelledError => (t ++ [Step.disposeEngine], false)
  | AwaitOutcome.normalReturn => (t ++ [Step.disposeEngine], false)
  | AwaitOutcome.otherError => (t, true)

/-- A whole `lifespan` run: if startup raises, the generator never reaches
`yield` and the shutdown section never executes; otherwise the shutdown
section runs after serving. -/
def run (s : AppSettings) (dbOk : Bool) (o : AwaitOutcome) :
    List Step × Option StartupError :=
  let r := startup s dbOk
  match r.error with
  | some e => (r.trace, some e)
  | none => (r.trace ++ (stop o).1, none)

/-- Step classifiers used to state ordering properties over traces. -/
def isSpawnPoller : Step → Bool
  | Step.spawnPoller _ => true
  | _ => false

def isSetupDb : Step → Bool
  | Step.setupDb => true
  | _ => false

def isSpawnListener : Step → Bool
  | Step.spawnListener => true
  | _ => false

def isConnectMlflow : Step → Bool
  | Step.connectMlflow => true
  | _ => false

def isWriteByte : Step → Bool
  | Step.writeByte _ _ => true
  | _ => false

def isCloseFd : Step → Bool
  | Step.closeFd _ => true
  | _ => false

def isPublish : Step → Bool
  | Step.publishState => true
  | _ => false

/-- Cache state of the `@lru_cache`-decorated `get_settings`:
the memoised value, if any, and how many times the underlying
`AppSettings()` construction has run. -/
structure SettingsCache where
  cached : Option AppSettings
  constructions : Nat
deriving Repr, DecidableEq

/-- The cache state at module import, before any call. -/
def freshCache : SettingsCache := { cached := none, constructions := 0 }

/-- `get_settings()`: return the memoised settings if present; otherwise run
the construction (whose result may depend on how many constructions have
already happened — `mk` receives the construction index, so a re-parse
would be observable) and memoise it. -/
def get_settings (mk : Nat → AppSettings) (c : SettingsCache) :
    AppSettings × SettingsCache :=
  match c.cached with
  | some s => (s, c)
  | none =>
      (mk c.constructions,
       { cached := some (mk c.constructions), constructions := c.constructions + 1 })

/-- `n` successive calls of `get_settings`, collecting the returned values. -/
def callN (mk : Nat → AppSettings) : Nat → SettingsCache → List AppSettings × SettingsCache
  | 0, c => ([], c)
  | n + 1, c =>
      let r := get_settings mk c
      let rest := callN mk n r.2
      (r.1 :: rest.1, rest.2)

/-! ### Window lemmas -/

/-- Folding capacity-`C` appends over a list: the window always holds the
last `C` elements of everything appended so far (starting window included). -/
theorem foldl_dequeAppend {α : Type} (C : Nat) (hC : 0 < C) :
    ∀ (es q : List α), q.length ≤ C →
      es.foldl (dequeAppend C) q = (q ++ es).drop (q.length + es.length - C) := by
  intro es
  induction es with
  | nil =>
      intro q hq
      simp [Nat.sub_eq_zero_of_le hq]
  | cons x es ih =>
      intro q hq
      rw [List.foldl_cons]
      by_cases h : q.length < C
      · rw [show dequeAppend C q x = q ++ [x] from if_pos h]
        rw [ih (q ++ [x]) (by simp; omega)]
        have harr : (q ++ [x]) ++ es = q ++ x :: es := by simp
        rw [harr]
        congr 1
        simp
        omega
      · have hqC : q.length = C := le_antisymm hq (not_lt.mp h)
        rw [show dequeAppend C q x = q.drop 1 ++ [x] from if_neg h]
        have hlen : (q.drop 1 ++ [x]).length ≤ C := by simp; omega
        rw [ih (q.drop 1 ++ [x]) hlen]
        have h1 : (q.drop 1 ++ [x]) ++ es = (q ++ x :: es).drop 1 := by
          rw [List.drop_append_eq_append_drop]
          have h0 : 1 - q.length = 0 := by omega
          rw [h0]
          simp
        have h2 : (q.drop 1 ++ [x]).length + es.length - C = es.length := by
          simp
          omega
        have h3 : q.length + (x :: es).length - C = es.length + 1 := by
          simp [hqC]
        rw [h1, h2, h3, List.drop_drop, Nat.add_comm 1 es.length]

/-! ### Startup shape lemmas -/

/-- Startup succeeds exactly when the store kind is `"psql"`, database setup
succeeds, and the events kind is `"mqtt"`. -/
theorem startup_error_none_iff (s : AppSettings) (dbOk : Bool) :
    (startup s dbOk).error = none ↔
      (s.store.store_type = "psql" ∧ dbOk = true ∧ s.events.events_type = "mqtt") := by
  unfold startup
  by_cases h1 : s.store.store_type = "psql" <;>
    by_cases h2 : dbOk = true <;>
      by_cases h3 : s.events.events_type = "mqtt" <;>
        simp [h1, h2, h3]

/-- On the successful path the whole startup result is determined:
the full trace in source order, no error, state published, and only the
listener task handle kept. -/
theorem startup_success_spec (s : AppSettings) (dbOk : Bool)
    (h : (startup s dbOk).error = none) :
    startup s dbOk =
      { trace := startupSteps0 ++
          [Step.setupDb, Step.setupMqttClient, Step.spawnListener,
           Step.logModels, Step.connectMlflow] ++
          write_healthcheck_file s ++ [Step.publishState]
        error := none
        published := true
        boundTasks := [TaskId.mqttListener] } := by
  obtain ⟨h1, h2, h3⟩ := (startup_error_none_iff s dbOk).mp h
  simp [startup, h1, h2, h3]

/-- No startup trace ever contains the engine-dispose step: `engine.dispose`
appears only after `yield`. -/
theorem disposeEngine_not_mem_startup (s : AppSettings) (dbOk : Bool) :
    Step.disposeEngine ∉ (startup s dbOk).trace := by
  unfold startup
  by_cases h1 : s.store.store_type = "psql" <;>
    by_cases h2 : dbOk = true <;>
      by_cases h3 : s.events.events_type = "mqtt" <;>
        simp [h1, h2, h3, startupSteps0, write_healthcheck_file]

/-! ### Claim theorems -/

/-- C1: for every sequence of `N` appends to the capacity-20 ring buffer
created by `lifespan`, a snapshot of the window has length `min N 20` and
equals the last `min N 20` appended records in append order (oldest first);
and appending to a window holding 20 records evicts exactly the single
oldest record, preserving the relative order of the rest. -/
theorem C1_bounded_event_window {α : Type} (es : List α) :
    (windowOfAppends es).length = min es.length 20 ∧
    windowOfAppends es = es.drop (es.length - 20) ∧
    (∀ (q : List α) (x : α), q.length = 20 →
      dequeAppend 20 q x = q.drop 1 ++ [x]) := by
  have h := foldl_dequeAppend 20 (by norm_num) es ([] : List α) (by simp)
  simp at h
  refine ⟨?_, h, ?_⟩
  · rw [windowOfAppends, h]
    simp
    omega
  · intro q x hq
    rw [dequeAppend, if_neg (by omega)]

/-- Witness for C1 at concrete inputs. -/
theorem C1_bounded_event_window_witness :
    (List.range 20).length = 20 ∧
    dequeAppend 20 (List.range 20) 99 = (List.range 20).drop 1 ++ [99] :=
  ⟨by decide,
   (C1_bounded_event_window (List.range 20)).2.2 (List.range 20) 99 (by decide)⟩

/-- A settings value with the supported store kind but an unsupported
event-bus kind. -/
def kafkaEventsSettings : AppSettings :=
  { store := { store_type := "psql" }
    events := { events_type := "kafka" }
    notify_fd := none
    include_challenger_models := false
    force_publish_models := false }

/-- A settings value with an unsupported store kind. -/
def sqliteStoreSettings : AppSettings :=
  { store := { store_type := "sqlite" }
    events := { events_type := "mqtt" }
    notify_fd := none
    include_challenger_models := false
    force_publish_models := false }

/-- A fully supported settings value with a truthy notification fd. -/
def goodSettings : AppSettings :=
  { store := { store_type := "psql" }
    events := { events_type := "mqtt" }
    notify_fd := some 3
    include_challenger_models := true
    force_publish_models := false }

/-- C2 counterexample: with store kind `"psql"` and event-bus kind
`"kafka"`, the unsupported-event-bus-kind error is raised, but the storage
engine has already been acquired at that point — refuting "raised before
any resource is acquired" for the event-bus error. -/
theorem C2_counterexample :
    (startup kafkaEventsSettings true).error =
      some (StartupError.unknownEventsType "kafka") ∧
    Step.setupDb ∈ (startup kafkaEventsSettings true).trace := by
  constructor
  · rfl
  · have h : (startup kafkaEventsSettings true).trace =
        startupSteps0 ++ [Step.setupDb] := rfl
    rw [h]
    simp [startupSteps0]

/-- C2 (amended): the unsupported-storage-kind error is raised before any
resource is acquired (no storage setup, no event-bus client); the
unsupported-event-bus-kind error is raised before the event-bus client is
constructed, but only after the storage engine has been acquired. -/
theorem C2_config_errors_before_resources (s : AppSettings) (dbOk : Bool) :
    (s.store.store_type ≠ "psql" →
      (startup s dbOk).error =
        some (StartupError.unknownStoreType s.store.store_type) ∧
      Step.setupDb ∉ (startup s dbOk).trace ∧
      Step.setupMqttClient ∉ (startup s dbOk).trace ∧
      Step.spawnListener ∉ (startup s dbOk).trace) ∧
    (s.store.store_type = "psql" → dbOk = true → s.events.events_type ≠ "mqtt" →
      (startup s dbOk).error =
        some (StartupError.unknownEventsType s.events.events_type) ∧
      Step.setupMqttClient ∉ (startup s dbOk).trace ∧
      Step.spawnListener ∉ (startup s dbOk).trace ∧
      Step.setupDb ∈ (startup s dbOk).trace) := by
  constructor
  · intro h1
    simp [startup, h1, startupSteps0]
  · intro h1 h2 h3
    simp [startup, h1, h2, h3, startupSteps0]

/-- Witness for C2 (amended) at concrete settings. -/
theorem C2_config_errors_before_resources_witness :
    (startup sqliteStoreSettings true).error =
      some (StartupError.unknownStoreType "sqlite") ∧
    Step.setupDb ∉ (startup sqliteStoreSettings true).trace :=
  have h := (C2_config_errors_before_resources sqliteStoreSettings true).1
    (by decide)
  ⟨h.1, h.2.1⟩

/-- C3 counterexample: with an unsupported store kind the startup raises,
but the registry-poller background task has already been created —
refuting "raises before any background task is created". -/
theorem C3_counterexample :
    (startup sqliteStoreSettings true).error =
      some (StartupError.unknownStoreType "sqlite") ∧
    Step.spawnPoller 10 ∈ (startup sqliteStoreSettings true).trace := by
  constructor
  · rfl
  · have h : (startup sqliteStoreSettings true).trace = startupSteps0 := rfl
    rw [h]
    simp [startupSteps0]

/-- C3 (amended): an unsupported store kind, or storage-acquisition failure,
raises before the event-listener background task is created (though the
registry-poller task has already been created), no readiness byte is
written, and no shared state is published. -/
theorem C3_storage_error_no_listener (s : AppSettings) (dbOk : Bool)
    (h : s.store.store_type ≠ "psql" ∨ dbOk = false) :
    (startup s dbOk).error.isSome = true ∧
    Step.spawnListener ∉ (startup s dbOk).trace ∧
    (∀ (fd : Int) (bs : List Nat), Step.writeByte fd bs ∉ (startup s dbOk).trace) ∧
    Step.publishState ∉ (startup s dbOk).trace ∧
    (startup s dbOk).published = false := by
  by_cases h1 : s.store.store_type = "psql"
  · have h2 : dbOk = false := by
      rcases h with h | h
      · exact absurd h1 h
      · exact h
    simp [startup, h1, h2, startupSteps0]
  · simp [startup, h1, startupSteps0]

/-- Witness for C3 (amended) at concrete settings. -/
theorem C3_storage_error_no_listener_witness :
    (startup sqliteStoreSettings true).error.isSome = true ∧
    Step.publishState ∉ (startup sqliteStoreSettings true).trace :=
  have h := C3_storage_error_no_listener sqliteStoreSettings true
    (Or.inl (by decide))
  ⟨h.1, h.2.2.2.1⟩

/-- C4 counterexample: a fully supported configuration starts successfully,
yet the registry-poller task is created strictly before the storage handle
is acquired — refuting "the storage handle is acquired first, then the
registry poller background task is started". -/
theorem C4_counterexample :
    (startup goodSettings true).error = none ∧
    (startup goodSettings true).trace.findIdx isSpawnPoller <
      (startup goodSettings true).trace.findIdx isSetupDb := by
  constructor
  · rfl
  · have h : (startup goodSettings true).trace =
        [Step.spawnPoller 10, Step.createRingBuffer 20, Step.setupDb,
         Step.setupMqttClient, Step.spawnListener, Step.logModels,
         Step.connectMlflow, Step.writeByte 3 [10], Step.closeFd 3,
         Step.publishState] := rfl
    rw [h]
    simp [List.findIdx_cons, isSpawnPoller, isSetupDb]

/-- C4 (amended): on every successful startup the steps occur in this
order: the registry-poller task is started first, then the storage handle
is acquired, then the event-listener task is started, and only then is the
shared state published. -/
theorem C4_startup_order (s : AppSettings) (dbOk : Bool)
    (h : (startup s dbOk).error = none) :
    (startup s dbOk).trace.findIdx isSpawnPoller <
      (startup s dbOk).trace.findIdx isSetupDb ∧
    (startup s dbOk).trace.findIdx isSetupDb <
      (startup s dbOk).trace.findIdx isSpawnListener ∧
    (startup s dbOk).trace.findIdx isSpawnListener <
      (startup s dbOk).trace.findIdx isPublish := by
  rw [startup_success_spec s dbOk h]
  by_cases ht : pyTruthy s.notify_fd
  · simp [write_healthcheck_file, ht, startupSteps0, List.findIdx_cons,
      isSpawnPoller, isSetupDb, isSpawnListener, isPublish]
  · simp [write_healthcheck_file, ht, startupSteps0, List.findIdx_cons,
      isSpawnPoller, isSetupDb, isSpawnListener, isPublish]

/-- Witness for C4 (amended) at concrete settings. -/
theorem C4_startup_order_witness :
    (startup goodSettings true).trace.findIdx isSetupDb <
      (startup goodSettings true).trace.findIdx isSpawnListener :=
  (C4_startup_order goodSettings true (by decide)).2.1

/-- C5: the shutdown section cancels the event-listener task, awaits it
treating `CancelledError` as an expected outcome — so it completes without
raising on the expected-cancellation path — and disposes the storage
engine strictly after the listener's cancellation has completed, as the
returned trace order shows. -/
theorem C5_stop_expected_cancellation :
    (stop AwaitOutcome.cancelledError).2 = false ∧
    (stop AwaitOutcome.cancelledError).1 =
      [Step.cancelTask TaskId.mqttListener, Step.awaitTask TaskId.mqttListener,
       Step.disposeEngine] :=
  ⟨rfl, rfl⟩

/-- C6: on successful startup, a truthy notification descriptor receives
exactly one write of the single newline byte, is closed immediately
afterwards, and this happens only after every preceding startup step
(through the MLflow connection) has succeeded; a falsy/absent descriptor
means nothing is written and nothing is closed, with no error. -/
theorem C6_readiness_signal (s : AppSettings) (dbOk : Bool)
    (h : (startup s dbOk).error = none) :
    (pyTruthy s.notify_fd = true →
      (startup s dbOk).trace.filter isWriteByte =
        [Step.writeByte (fdVal s.notify_fd) [10]] ∧
      (startup s dbOk).trace.filter isCloseFd =
        [Step.closeFd (fdVal s.notify_fd)] ∧
      (startup s dbOk).trace.findIdx isConnectMlflow <
        (startup s dbOk).trace.findIdx isWriteByte ∧
      (startup s dbOk).trace.findIdx isWriteByte + 1 =
        (startup s dbOk).trace.findIdx isCloseFd) ∧
    (pyTruthy s.notify_fd = false →
      (startup s dbOk).trace.filter isWriteByte = [] ∧
      (startup s dbOk).trace.filter isCloseFd = [] ∧
      (startup s dbOk).error = none) := by
  rw [startup_success_spec s dbOk h]
  constructor
  · intro ht
    simp [write_healthcheck_file, ht, startupSteps0, List.findIdx_cons,
      List.filter, isWriteByte, isCloseFd, isConnectMlflow]
  · intro ht
    simp [write_healthcheck_file, ht, startupSteps0, List.filter,
      isWriteByte, isCloseFd]

/-- Witness for C6 at concrete settings. -/
theorem C6_readiness_signal_witness :
    (startup goodSettings true).trace.filter isWriteByte =
      [Step.writeByte 3 [10]] :=
  ((C6_readiness_signal goodSettings true (by decide)).1 (by decide)).1

/-- C7: the registry poller is spawned with the fixed interval 10, its task
handle is not among the handles the orchestrator keeps, and across a whole
run (startup plus shutdown) the event-listener task is the only task ever
cancelled or awaited. -/
theorem C7_poller_fire_and_forget (s : AppSettings) (dbOk : Bool)
    (o : AwaitOutcome) (h : (startup s dbOk).error = none) :
    Step.spawnPoller 10 ∈ (run s dbOk o).1 ∧
    (∀ tid, Step.cancelTask tid ∈ (run s dbOk o).1 → tid = TaskId.mqttListener) ∧
    (∀ tid, Step.awaitTask tid ∈ (run s dbOk o).1 → tid = TaskId.mqttListener) ∧
    TaskId.registryPoller ∉ (startup s dbOk).boundTasks ∧
    TaskId.mqttListener ∈ (startup s dbOk).boundTasks := by
  have hs := startup_success_spec s dbOk h
  have hrun : (run s dbOk o).1 = (startup s dbOk).trace ++ (stop o).1 := by
    rw [run]
    rw [h]
  rw [hrun, hs]
  by_cases ht : pyTruthy s.notify_fd <;>
    cases o <;>
      simp [write_healthcheck_file, ht, startupSteps0, stop]

/-- Witness for C7 at concrete settings. -/
theorem C7_poller_fire_and_forget_witness :
    Step.spawnPoller 10 ∈ (run goodSettings true AwaitOutcome.cancelledError).1 :=
  (C7_poller_fire_and_forget goodSettings true AwaitOutcome.cancelledError
    (by decide)).1

/-- Once the cache is warm, further calls return the cached value and run
no construction. -/
theorem callN_cached (mk : Nat → AppSettings) (s : AppSettings) (k : Nat) :
    ∀ n, callN mk n { cached := some s, constructions := k } =
      (List.replicate n s, { cached := some s, constructions := k }) := by
  intro n
  induction n with
  | zero => rfl
  | succ n ih => simp [callN, get_settings, ih, List.replicate_succ]

/-- C8: starting from the fresh module-level cache, any sequence of at
least one `get_settings` call runs the `AppSettings` construction exactly
once, and every call returns the identical first-constructed value — even
when a re-construction would have produced a different value. -/
theorem C8_get_settings_cached (mk : Nat → AppSettings) (n : Nat)
    (hn : 1 ≤ n) :
    (callN mk n freshCache).1 = List.replicate n (mk 0) ∧
    (callN mk n freshCache).2.constructions = 1 := by
  obtain ⟨m, rfl⟩ : ∃ m, n = m + 1 := ⟨n - 1, by omega⟩
  simp [callN, get_settings, freshCache, callN_cached, List.replicate_succ]

/-- Witness for C8: two calls with a construction whose result depends on
the construction count still return the same first value and construct
once. -/
theorem C8_get_settings_cached_witness :
    (callN (fun k => { goodSettings with notify_fd := some (k : Int) })
        2 freshCache).1 =
      List.replicate 2 { goodSettings with notify_fd := some (0 : Int) } ∧
    (callN (fun k => { goodSettings with notify_fd := some (k : Int) })
        2 freshCache).2.constructions = 1 :=
  C8_get_settings_cached (fun k => { goodSettings with notify_fd := some (k : Int) })
    2 (by decide)

/-- C9: `write_healthcheck_file` tests `notify_fd` for Python truthiness,
not presence: a configured descriptor equal to `0` (a valid file
descriptor) causes no write and no close, exactly as when the descriptor
is absent. -/
theorem C9_notify_fd_truthiness (s : AppSettings) (h : s.notify_fd = some 0) :
    write_healthcheck_file s = [] ∧
    write_healthcheck_file s =
      write_healthcheck_file { s with notify_fd := none } := by
  simp [write_healthcheck_file, pyTruthy, h]

/-- Witness for C9 at concrete settings. -/
theorem C9_notify_fd_truthiness_witness :
    write_healthcheck_file { goodSettings with notify_fd := some 0 } = [] :=
  (C9_notify_fd_truthiness { goodSettings with notify_fd := some 0 } rfl).1

/-- C10: when startup fails with the unsupported-event-bus-kind error the
storage engine has already been acquired on that path, yet the run's trace
never contains the engine-dispose step; in general the dispose step occurs
only on runs whose startup succeeded. -/
theorem C10_engine_undisposed_on_events_error (s : AppSettings)
    (dbOk : Bool) (o : AwaitOutcome) (hs : s.store.store_type = "psql")
    (hdb : dbOk = true) (he : s.events.events_type ≠ "mqtt") :
    (run s dbOk o).2 =
      some (StartupError.unknownEventsType s.events.events_type) ∧
    Step.setupDb ∈ (run s dbOk o).1 ∧
    Step.disposeEngine ∉ (run s dbOk o).1 ∧
    (∀ (s' : AppSettings) (dbOk' : Bool) (o' : AwaitOutcome),
      Step.disposeEngine ∈ (run s' dbOk' o').1 →
        (startup s' dbOk').error = none) := by
  refine ⟨?_, ?_, ?_, ?_⟩
  · simp [run, startup, hs, hdb, he]
  · simp [run, startup, hs, hdb, he, startupSteps0]
  · simp [run, startup, hs, hdb, he, startupSteps0]
  · intro s' dbOk' o' hmem
    by_cases h' : (startup s' dbOk').error = none
    · exact h'
    · exfalso
      apply disposeEngine_not_mem_startup s' dbOk'
      have hr : (run s' dbOk' o').1 = (startup s' dbOk').trace := by
        rw [run]
        cases herr : (startup s' dbOk').error with
        | none => exact absurd herr h'
        | some e => rfl
      rw [hr] at hmem
      exact hmem

/-- Witness for C10 at concrete settings. -/
theorem C10_engine_undisposed_on_events_error_witness :
    Step.setupDb ∈ (run kafkaEventsSettings true AwaitOutcome.cancelledError).1 ∧
    Step.disposeEngine ∉
      (run kafkaEventsSettings true AwaitOutcome.cancelledError).1 :=
  have h := C10_engine_undisposed_on_events_error kafkaEventsSettings true
    AwaitOutcome.cancelledError (by decide) rfl (by decide)
  ⟨h.2.1, h.2.2.1⟩

end Mindctrl
